import Mathlib

/-!
Verification of the prompt-to-image generator core against its design
specification.  The JavaScript source (app/page.jsx and app/api/gen/route.js)
is embedded shallowly: the filename deriver and the queue handlers become pure
Lean functions over an explicit application state, the asynchronous adapter
call becomes an outcome parameter (success carries the data url string,
failure carries the thrown message), and the external builtins the code calls
(the Unicode NFKD normalize method, the network fetch, JSON parsing) are
abstracted as parameters of the embedded functions.
-/

namespace PromptHub

/-- ASCII letter test: the character class of letters A to Z in either case,
used by the replace step of lettersOnlyFilename. -/
def isAsciiLetter (c : Char) : Bool :=
  (65 ≤ c.toNat && c.toNat ≤ 90) || (97 ≤ c.toNat && c.toNat ≤ 122)

/-- The JavaScript regular-expression whitespace class: space, tab, line and
paragraph separators, no-break spaces, the ogham space, the en/em space range,
the narrow and mathematical spaces, the ideographic space and the byte order
mark. -/
def isJsWhite (c : Char) : Bool :=
  c = ' ' || c = '\t' || c = '\n' || c = '\r' || c.toNat = 11 || c.toNat = 12 ||
  c.toNat = 160 || c.toNat = 5760 || (8192 ≤ c.toNat && c.toNat ≤ 8202) ||
  c.toNat = 8232 || c.toNat = 8233 || c.toNat = 8239 || c.toNat = 8287 ||
  c.toNat = 12288 || c.toNat = 65279

/-- Splits a character list at every occurrence of the separator, keeping
empty pieces, exactly as the JavaScript split method with a one-character
separator does: the empty input yields one empty piece. -/
def splitChar (sep : Char) : List Char → List (List Char)
  | [] => [[]]
  | c :: cs =>
    match splitChar sep cs with
    | [] => if c = sep then [[], []] else [[c]]
    | w :: ws => if c = sep then [] :: w :: ws else (c :: w) :: ws

/-- The JavaScript trim method: drops whitespace characters from both ends. -/
def jsTrim (l : List Char) : List Char :=
  ((l.dropWhile isJsWhite).reverse.dropWhile isJsWhite).reverse

/-- Collapses adjacent spaces to one space.  Composed after mapping every
whitespace character to a space, this is the global replace of whitespace runs
by a single space performed by lettersOnlyFilename. -/
def dedupSpace : List Char → List Char
  | [] => []
  | [c] => [c]
  | a :: b :: rest =>
    if a = ' ' && b = ' ' then dedupSpace (b :: rest)
    else a :: dedupSpace (b :: rest)

/-- Largest length of a string in the list, zero for the empty list.  Used
only to bound the fuel of the uniqueness loop. -/
def maxNameLen (l : List String) : Nat :=
  l.foldr (fun s m => Nat.max s.length m) 0

/-- Fueled form of the uniqueness while loop of lettersOnlyFilename: while the
candidate with the png extension is an existing name, append the copy suffix.
The loop of the source is unbounded; the fuel given below strictly dominates
the number of iterations the loop can make, because every iteration lengthens
the candidate by five characters while membership requires the candidate to be
no longer than the longest existing name. -/
def ensureUniqueFuel : Nat → List String → String → String
  | 0, _, attempt => attempt
  | Nat.succ fuel, existing, attempt =>
    if (attempt ++ ".png") ∈ existing then
      ensureUniqueFuel fuel existing (attempt ++ "-copy")
    else attempt

/-- The uniqueness loop followed by appending the png extension, as at the end
of lettersOnlyFilename. -/
def ensureUnique (existing : List String) (name : String) : String :=
  ensureUniqueFuel (maxNameLen existing + 1) existing name ++ ".png"

/-- The pipeline of lettersOnlyFilename after the normalize call: replace
every character that is neither an ASCII letter nor whitespace by a space,
collapse whitespace runs to single spaces, trim, split on spaces, keep the
first eight words, join with hyphens, lower-case, fall back to the word image
when empty, then make the name unique. -/
def lettersOnlyCore (normalized : String) (existing : List String) : String :=
  let s1 := normalized.data.map (fun c => if isAsciiLetter c || isJsWhite c then c else ' ')
  let s2 := dedupSpace (s1.map (fun c => if isJsWhite c then ' ' else c))
  let s3 := jsTrim s2
  let base := String.mk ((List.intercalate ['-'] ((splitChar ' ' s3).take 8)).map Char.toLower)
  let name := if base = "" then "image" else base
  ensureUnique existing name

/-- lettersOnlyFilename from app/page.jsx.  The call to the external NFKD
normalize builtin is abstracted as the function argument norm; the or-else on
the prompt substitutes the word image for an empty prompt before normalizing,
as in the source. -/
def lettersOnlyFilename (norm : String → String) (prompt : String)
    (existing : List String) : String :=
  lettersOnlyCore (norm (if prompt = "" then "image" else prompt)) existing

theorem mem_length_le_maxNameLen {s : String} {l : List String} (h : s ∈ l) :
    s.length ≤ maxNameLen l := by
  induction l with
  | nil => cases h
  | cons a t ih =>
    rcases List.mem_cons.mp h with h1 | h2
    · subst h1
      exact Nat.le_max_left _ _
    · exact Nat.le_trans (ih h2) (Nat.le_max_right _ _)

theorem ensureUniqueFuel_not_mem :
    ∀ (fuel : Nat) (existing : List String) (attempt : String),
      maxNameLen existing + 1 ≤ attempt.length + 5 * fuel →
      (ensureUniqueFuel fuel existing attempt ++ ".png") ∉ existing := by
  intro fuel
  induction fuel with
  | zero =>
    intro existing attempt h hmem
    rw [ensureUniqueFuel] at hmem
    have hle := mem_length_le_maxNameLen hmem
    rw [String.length_append] at hle
    have h4 : (".png" : String).length = 4 := rfl
    omega
  | succ fuel ih =>
    intro existing attempt h
    rw [ensureUniqueFuel]
    by_cases hmem : (attempt ++ ".png") ∈ existing
    · rw [if_pos hmem]
      apply ih
      rw [String.length_append]
      have h5 : ("-copy" : String).length = 5 := rfl
      omega
    · rw [if_neg hmem]
      exact hmem

theorem ensureUnique_not_mem (existing : List String) (name : String) :
    ensureUnique existing name ∉ existing := by
  apply ensureUniqueFuel_not_mem
  omega

theorem lettersOnlyFilename_not_mem (norm : String → String) (prompt : String)
    (existing : List String) :
    lettersOnlyFilename norm prompt existing ∉ existing :=
  ensureUnique_not_mem existing _

/-- One per-prompt record of the result store: the source text, the derived
output filename, the status string (pending, ok or fail), the generated data
url when present, and the failure message when present. -/
structure ResultItem where
  prompt : String
  name : String
  status : String
  dataUrl : Option String := none
  error : Option String := none
deriving DecidableEq, Repr

/-- The queue state of the main component: the raw prompt text, the result
records, the cursor, the running and paused flags, and the selected provider
identifier. -/
structure AppState where
  promptText : String
  results : List ResultItem
  queueIndex : Nat
  running : Bool
  paused : Bool
  provider : String
deriving DecidableEq, Repr

/-- The prompts memo: split the prompt text into lines, trim each line and
drop the blank ones.  The source splits on a newline optionally preceded by a
carriage return; splitting on the newline alone is equivalent here because the
trim that follows removes a stray trailing carriage return. -/
def promptsOf (text : String) : List String :=
  (((splitChar '\n' text.data).map (fun l => String.mk (jsTrim l))).filter
    (fun s => s ≠ ""))

/-- The body of the rebuild effect: one pending record per prompt line, each
name derived against a fresh empty name set, exactly as the source passes a
newly constructed empty set for every line. -/
def rebuildResults (norm : String → String) (text : String) : List ResultItem :=
  (promptsOf text).map (fun p =>
    { prompt := p, name := lettersOnlyFilename norm p [], status := "pending" })

/-- The existing-names memo: the names of the current records, blank names
dropped. -/
def existingNames (rs : List ResultItem) : List String :=
  (rs.map (fun r => r.name)).filter (fun s => s ≠ "")

/-- The keys of the provider-engines registry of app/page.jsx. -/
def knownProviders : List String :=
  ["Gemini", "ChatGPT", "Bing AI", "Leonardo", "DALL·E (OpenAI)",
   "Gemini Banana", "Stability AI"]

/-- The result of awaiting the engine call for the chosen provider.  For a
registered provider the abstract adapter outcome is passed through; for an
unregistered one the registry lookup yields undefined and calling it throws a
type error, which the surrounding catch receives as its message. -/
def dispatchOutcome (provider : String) (outcome : Except String String) :
    Except String String :=
  if provider ∈ knownProviders then outcome
  else Except.error "engine is not a function"

/-- Applies a function to the record at one index, leaving the rest alone:
the map over previous results with an index-equality test used by every state
update of the source. -/
def updateAt : List ResultItem → Nat → (ResultItem → ResultItem) → List ResultItem
  | [], _, _ => []
  | r :: rs, 0, f => f r :: rs
  | r :: rs, Nat.succ i, f => r :: updateAt rs i f

/-- The name chosen by the worker for the record at the cursor: the already
assigned name when the record exists and its name is non-blank, otherwise a
fresh derivation against the existing-names memo. -/
def workName (norm : String → String) (st : AppState) : String :=
  let p := (promptsOf st.promptText).getD st.queueIndex ""
  match st.results[st.queueIndex]? with
  | some r => if r.name = "" then lettersOnlyFilename norm p (existingNames st.results) else r.name
  | none => lettersOnlyFilename norm p (existingNames st.results)

/-- One firing of the worker effect of app/page.jsx: return at once unless
running and not paused; when the cursor has reached the number of prompts,
stop the run; otherwise dispatch the record at the cursor, writing an ok
record with the data url on success or a fail record with the message on
failure, and unconditionally advance the cursor by one. -/
def workStep (norm : String → String) (st : AppState)
    (outcome : Except String String) : AppState :=
  if !st.running || st.paused then st
  else if (promptsOf st.promptText).length ≤ st.queueIndex then
    { st with running := false }
  else
    let name := workName norm st
    match dispatchOutcome st.provider outcome with
    | Except.ok d =>
        { st with
          results := updateAt st.results st.queueIndex
            (fun r => { r with name := name, status := "ok", dataUrl := some d }),
          queueIndex := st.queueIndex + 1 }
    | Except.error m =>
        { st with
          results := updateAt st.results st.queueIndex
            (fun r => { r with name := name, status := "fail", error := some m }),
          queueIndex := st.queueIndex + 1 }

/-- Whether one firing of the worker actually calls a provider engine: the
run must be active and unpaused, the cursor in range, and the provider
registered. -/
def workDispatches (st : AppState) : Bool :=
  st.running && !st.paused &&
    decide (st.queueIndex < (promptsOf st.promptText).length) &&
    decide (st.provider ∈ knownProviders)

/-- The worker loop: one firing per adapter outcome, in order. -/
def runWorker (norm : String → String) (st : AppState)
    (outcomes : List (Except String String)) : AppState :=
  outcomes.foldl (workStep norm) st

/-- The start handler of app/page.jsx: with no login it only opens the login
modal; with no prompts it returns; otherwise it resets the cursor to zero,
sets running and clears paused.  It performs no provider check. -/
def start (st : AppState) (loggedIn : Bool) : AppState :=
  if !loggedIn then st
  else if (promptsOf st.promptText).length = 0 then st
  else { st with queueIndex := 0, running := true, paused := false }

/-- The start handler of the duplicated component variant, which additionally
returns at once when no engine is registered for the provider. -/
def startVariant (st : AppState) (loggedIn : Bool) : AppState :=
  if !loggedIn then st
  else if st.provider ∈ knownProviders then
    (if (promptsOf st.promptText).length = 0 then st
     else { st with queueIndex := 0, running := true, paused := false })
  else st

/-- The stop handler: clear the running and paused flags, nothing else.
Note that in the program this write does not stand alone: the rebuild effect
depends on both the prompt text and the running flag, so flipping running
re-fires it, modeled here by composing rebuildEffect after stop. -/
def stop (st : AppState) : AppState :=
  { st with running := false, paused := false }

/-- The pause handler. -/
def pause (st : AppState) : AppState :=
  { st with paused := true }

/-- The resume handler of the main component. -/
def resume (st : AppState) : AppState :=
  { st with paused := false }

/-- The clear handler: wipe the prompt text, the records and the cursor, and
clear both flags. -/
def clearAll (st : AppState) : AppState :=
  { st with promptText := "", results := [], queueIndex := 0,
            running := false, paused := false }

/-- The rebuild effect: when not running, rebuild the records from the
prompt text as all-pending and reset the cursor.  Its dependency array lists
the prompt text and the running flag, so it fires not only when the text is
edited but also whenever running flips, in particular right after the stop
handler or after a run completes. -/
def rebuildEffect (norm : String → String) (st : AppState) : AppState :=
  if st.running then st
  else { st with results := rebuildResults norm st.promptText, queueIndex := 0 }

/-- The state of the retry handler after its first update: the record at the
index is set back to pending with its error cleared; with no record at the
index the handler has already returned. -/
def regenPendingState (st : AppState) (idx : Nat) : AppState :=
  match st.results[idx]? with
  | none => st
  | some _ =>
      let rs := updateAt st.results idx
        (fun r => { r with status := "pending", error := none })
      { st with results := rs }

/-- The retry handler regenerateOne of app/page.jsx: return at once when no
record exists at the index; otherwise mark the record pending, await the
engine, and write an ok record with the new data url or a fail record with
the thrown message. -/
def regenerateOne (st : AppState) (idx : Nat)
    (outcome : Except String String) : AppState :=
  match st.results[idx]? with
  | none => st
  | some _ =>
      let st1 := regenPendingState st idx
      match dispatchOutcome st.provider outcome with
      | Except.ok d =>
          let rs := updateAt st1.results idx
            (fun r => { r with status := "ok", dataUrl := some d })
          { st1 with results := rs }
      | Except.error m =>
          let rs := updateAt st1.results idx
            (fun r => { r with status := "fail", error := some m })
          { st1 with results := rs }

/-- Whether the retry handler calls a provider engine: a record must exist at
the index and the provider must be registered. -/
def regenDispatches (st : AppState) (idx : Nat) : Bool :=
  (st.results[idx]?).isSome && decide (st.provider ∈ knownProviders)

/-- The state in which a full run begins: the records freshly rebuilt from
the prompt text by the rebuild effect while idle, and the start handler just
fired (cursor zero, running set, paused clear). -/
def initialRunState (norm : String → String) (text provider : String) : AppState :=
  { promptText := text, results := rebuildResults norm text, queueIndex := 0,
    running := true, paused := false, provider := provider }

theorem length_updateAt (l : List ResultItem) (i : Nat) (f : ResultItem → ResultItem) :
    (updateAt l i f).length = l.length := by
  induction l generalizing i with
  | nil => rfl
  | cons r rs ih =>
    cases i with
    | zero => rfl
    | succ j => simp [updateAt, ih]

theorem getElem?_updateAt_self (l : List ResultItem) (i : Nat)
    (f : ResultItem → ResultItem) :
    (updateAt l i f)[i]? = (l[i]?).map f := by
  induction l generalizing i with
  | nil => cases i <;> rfl
  | cons r rs ih =>
    cases i with
    | zero => simp [updateAt]
    | succ j => simpa [updateAt] using ih j

theorem getElem?_updateAt_ne (l : List ResultItem) (i j : Nat)
    (f : ResultItem → ResultItem) (h : j ≠ i) :
    (updateAt l i f)[j]? = l[j]? := by
  induction l generalizing i j with
  | nil => rfl
  | cons r rs ih =>
    cases i with
    | zero =>
      cases j with
      | zero => exact absurd rfl h
      | succ k => simp [updateAt]
    | succ i2 =>
      cases j with
      | zero => simp [updateAt]
      | succ k =>
        have hk : k ≠ i2 := fun he => h (by rw [he])
        simpa [updateAt] using ih i2 k hk

theorem length_rebuildResults (norm : String → String) (text : String) :
    (rebuildResults norm text).length = (promptsOf text).length := by
  simp [rebuildResults]

/-- The shape of one worker firing while running, unpaused and with the
cursor in range: the record at the cursor is rewritten according to the
dispatch outcome and the cursor advances by one. -/
theorem workStep_eq (norm : String → String) (st : AppState)
    (o : Except String String)
    (hr : st.running = true) (hp : st.paused = false)
    (hq : st.queueIndex < (promptsOf st.promptText).length) :
    workStep norm st o =
      match dispatchOutcome st.provider o with
      | Except.ok d =>
          { st with
            results := updateAt st.results st.queueIndex (fun r => { r with name := workName norm st, status := "ok", dataUrl := some d }),
            queueIndex := st.queueIndex + 1 }
      | Except.error m =>
          { st with
            results := updateAt st.results st.queueIndex (fun r => { r with name := workName norm st, status := "fail", error := some m }),
            queueIndex := st.queueIndex + 1 } := by
  unfold workStep
  rw [hr, hp]
  simp only [Bool.not_true, Bool.false_or, if_neg (Bool.false_ne_true),
    if_neg (Nat.not_le.mpr hq)]

/-- Invariant of the worker loop: feeding exactly the remaining number of
outcomes drives the cursor to the end of the prompt list and leaves every
record with status ok or fail, provided every record strictly below the
cursor already has such a status. -/
theorem runWorker_aux (norm : String → String) :
    ∀ (outcomes : List (Except String String)) (st : AppState),
      st.running = true → st.paused = false →
      st.results.length = (promptsOf st.promptText).length →
      st.queueIndex + outcomes.length = (promptsOf st.promptText).length →
      (∀ j r, j < st.queueIndex → st.results[j]? = some r →
          r.status = "ok" ∨ r.status = "fail") →
      (runWorker norm st outcomes).queueIndex = (promptsOf st.promptText).length ∧
      (runWorker norm st outcomes).results.length = (promptsOf st.promptText).length ∧
      ∀ r ∈ (runWorker norm st outcomes).results,
        r.status = "ok" ∨ r.status = "fail" := by
  intro outcomes
  induction outcomes with
  | nil =>
    intro st hr hp hlen hq hdone
    simp only [List.length_nil, Nat.add_zero] at hq
    have hrun : runWorker norm st [] = st := rfl
    rw [hrun]
    refine ⟨hq, hlen, ?_⟩
    intro r hmem
    obtain ⟨j, hj, hget⟩ := List.mem_iff_getElem.mp hmem
    have hjq : j < st.queueIndex := by omega
    exact hdone j r hjq (by rw [List.getElem?_eq_getElem hj, hget])
  | cons o os ih =>
    intro st hr hp hlen hq hdone
    simp only [List.length_cons] at hq
    have hqlt : st.queueIndex < (promptsOf st.promptText).length := by omega
    have heq := workStep_eq norm st o hr hp hqlt
    have hrun : runWorker norm st (o :: os) = runWorker norm (workStep norm st o) os := rfl
    rw [hrun]
    cases hdo : dispatchOutcome st.provider o with
    | ok d =>
      rw [hdo] at heq
      rw [heq]
      have h2 := ih { st with
          results := updateAt st.results st.queueIndex (fun r => { r with name := workName norm st, status := "ok", dataUrl := some d }),
          queueIndex := st.queueIndex + 1 }
        hr hp (by show (updateAt _ _ _).length = _; rw [length_updateAt]; exact hlen)
        (by show st.queueIndex + 1 + os.length = (promptsOf st.promptText).length; omega)
        (by
          intro j r hj hget
          rcases Nat.lt_succ_iff_lt_or_eq.mp hj with hlt | heq2
          · exact hdone j r hlt
              (by rw [← getElem?_updateAt_ne st.results st.queueIndex j _ (Nat.ne_of_lt hlt)]; exact hget)
          · subst heq2
            have hget2 : (updateAt st.results st.queueIndex (fun r => { r with name := workName norm st, status := "ok", dataUrl := some d }))[st.queueIndex]? = some r := hget
            rw [getElem?_updateAt_self] at hget2
            cases hg : st.results[st.queueIndex]? with
            | none => rw [hg] at hget2; cases hget2
            | some r0 =>
              rw [hg] at hget2
              cases hget2
              exact Or.inl rfl)
      exact h2
    | error m =>
      rw [hdo] at heq
      rw [heq]
      have h2 := ih { st with
          results := updateAt st.results st.queueIndex (fun r => { r with name := workName norm st, status := "fail", error := some m }),
          queueIndex := st.queueIndex + 1 }
        hr hp (by show (updateAt _ _ _).length = _; rw [length_updateAt]; exact hlen)
        (by show st.queueIndex + 1 + os.length = (promptsOf st.promptText).length; omega)
        (by
          intro j r hj hget
          rcases Nat.lt_succ_iff_lt_or_eq.mp hj with hlt | heq2
          · exact hdone j r hlt
              (by rw [← getElem?_updateAt_ne st.results st.queueIndex j _ (Nat.ne_of_lt hlt)]; exact hget)
          · subst heq2
            have hget2 : (updateAt st.results st.queueIndex (fun r => { r with name := workName norm st, status := "fail", error := some m }))[st.queueIndex]? = some r := hget
            rw [getElem?_updateAt_self] at hget2
            cases hg : st.results[st.queueIndex]? with
            | none => rw [hg] at hget2; cases hget2
            | some r0 =>
              rw [hg] at hget2
              cases hget2
              exact Or.inr rfl)
      exact h2

/-- C1: for every prompt list of length N, running the worker to completion
from a freshly started run, with any mix of per-item adapter successes and
failures, ends with the cursor equal to N and every record in status ok or
fail, none pending. -/
theorem c1_full_run_completes (norm : String → String) (text provider : String)
    (outcomes : List (Except String String))
    (h : outcomes.length = (promptsOf text).length) :
    (runWorker norm (initialRunState norm text provider) outcomes).queueIndex =
      (promptsOf text).length ∧
    ∀ r ∈ (runWorker norm (initialRunState norm text provider) outcomes).results,
      r.status = "ok" ∨ r.status = "fail" := by
  have h2 := runWorker_aux norm outcomes (initialRunState norm text provider)
    rfl rfl (length_rebuildResults norm text)
    (by show 0 + outcomes.length = (promptsOf text).length; omega)
    (fun j r hj _ => absurd hj (Nat.not_lt_zero j))
  exact ⟨h2.1, h2.2.2⟩

/-- C1 witness at two prompts with one success and one failure. -/
theorem c1_full_run_completes_witness :
    (runWorker id (initialRunState id "cat\ndog" "Gemini")
        [Except.ok "d", Except.error "boom"]).queueIndex =
      (promptsOf "cat\ndog").length ∧
    ∀ r ∈ (runWorker id (initialRunState id "cat\ndog" "Gemini")
        [Except.ok "d", Except.error "boom"]).results,
      r.status = "ok" ∨ r.status = "fail" :=
  c1_full_run_completes id "cat\ndog" "Gemini"
    [Except.ok "d", Except.error "boom"] (by decide)

/-- C2: the stop handler in isolation writes only the two flags, but the
program does not compose it that way: flipping running re-fires the rebuild
effect, which, seeing running false, resets every record to pending and the
cursor to zero.  Evaluated at a mid-run state holding one ok record and
cursor one: after stop plus the mandatory effect re-fire the ok status and
the cursor are gone, against the claim that stop preserves them; the clear
handler behaves as claimed. -/
theorem c2_stop_rebuild_wipes :
    (stop { promptText := "cat\ndog", results := [{ prompt := "cat", name := "cat.png", status := "ok", dataUrl := some "d", error := none }, { prompt := "dog", name := "dog.png", status := "pending", dataUrl := none, error := none }], queueIndex := 1, running := true, paused := false, provider := "Gemini" }).running = false ∧
    (stop { promptText := "cat\ndog", results := [{ prompt := "cat", name := "cat.png", status := "ok", dataUrl := some "d", error := none }, { prompt := "dog", name := "dog.png", status := "pending", dataUrl := none, error := none }], queueIndex := 1, running := true, paused := false, provider := "Gemini" }).results.map (fun r => r.status) = ["ok", "pending"] ∧
    (stop { promptText := "cat\ndog", results := [{ prompt := "cat", name := "cat.png", status := "ok", dataUrl := some "d", error := none }, { prompt := "dog", name := "dog.png", status := "pending", dataUrl := none, error := none }], queueIndex := 1, running := true, paused := false, provider := "Gemini" }).queueIndex = 1 ∧
    (rebuildEffect id (stop { promptText := "cat\ndog", results := [{ prompt := "cat", name := "cat.png", status := "ok", dataUrl := some "d", error := none }, { prompt := "dog", name := "dog.png", status := "pending", dataUrl := none, error := none }], queueIndex := 1, running := true, paused := false, provider := "Gemini" })).results.map (fun r => r.status) = ["pending", "pending"] ∧
    (rebuildEffect id (stop { promptText := "cat\ndog", results := [{ prompt := "cat", name := "cat.png", status := "ok", dataUrl := some "d", error := none }, { prompt := "dog", name := "dog.png", status := "pending", dataUrl := none, error := none }], queueIndex := 1, running := true, paused := false, provider := "Gemini" })).queueIndex = 0 ∧
    (clearAll { promptText := "cat\ndog", results := [{ prompt := "cat", name := "cat.png", status := "ok", dataUrl := some "d", error := none }, { prompt := "dog", name := "dog.png", status := "pending", dataUrl := none, error := none }], queueIndex := 1, running := true, paused := false, provider := "Gemini" }).promptText = "" ∧
    (clearAll { promptText := "cat\ndog", results := [{ prompt := "cat", name := "cat.png", status := "ok", dataUrl := some "d", error := none }, { prompt := "dog", name := "dog.png", status := "pending", dataUrl := none, error := none }], queueIndex := 1, running := true, paused := false, provider := "Gemini" }).results = [] ∧
    (clearAll { promptText := "cat\ndog", results := [{ prompt := "cat", name := "cat.png", status := "ok", dataUrl := some "d", error := none }, { prompt := "dog", name := "dog.png", status := "pending", dataUrl := none, error := none }], queueIndex := 1, running := true, paused := false, provider := "Gemini" }).queueIndex = 0 := by
  decide

/-- C3: the filename deriver implements the normalize, strip, collapse,
trim, first-eight-words, hyphenate, lower-case, image-fallback, png pipeline;
on the sample prompt it yields a-red-fox.png, and on an empty prompt it
substitutes the image token.  The hypotheses pin the abstracted NFKD builtin
on the two ASCII inputs, where Unicode normalization is the identity. -/
theorem c3_filename_pipeline (norm : String → String)
    (h1 : norm "A Red Fox! 2024" = "A Red Fox! 2024")
    (h2 : norm "image" = "image") :
    lettersOnlyFilename norm "A Red Fox! 2024" [] = "a-red-fox.png" ∧
    lettersOnlyFilename norm "" [] = "image.png" := by
  constructor
  · unfold lettersOnlyFilename
    rw [if_neg (by decide), h1]
    decide
  · unfold lettersOnlyFilename
    rw [if_pos rfl, h2]
    decide

/-- C3 witness with the identity as the normalizer. -/
theorem c3_filename_pipeline_witness :
    lettersOnlyFilename id "A Red Fox! 2024" [] = "a-red-fox.png" ∧
    lettersOnlyFilename id "" [] = "image.png" :=
  c3_filename_pipeline id rfl rfl

/-- C4: for every prompt and every finite existing-name set the derived name
avoids the set, and disambiguation repeatedly appends the constant copy
suffix, as the two sample derivations show. -/
theorem c4_filename_unique :
    (∀ (norm : String → String) (prompt : String) (existing : List String),
        lettersOnlyFilename norm prompt existing ∉ existing) ∧
    ∀ norm : String → String, norm "cat" = "cat" →
      lettersOnlyFilename norm "cat" ["cat.png"] = "cat-copy.png" ∧
      lettersOnlyFilename norm "cat" ["cat.png", "cat-copy.png"] = "cat-copy-copy.png" := by
  refine ⟨lettersOnlyFilename_not_mem, ?_⟩
  intro norm hc
  constructor
  · unfold lettersOnlyFilename
    rw [if_neg (by decide), hc]
    decide
  · unfold lettersOnlyFilename
    rw [if_neg (by decide), hc]
    decide

/-- C4 witness with the identity as the normalizer. -/
theorem c4_filename_unique_witness :
    lettersOnlyFilename id "cat" ["cat.png"] = "cat-copy.png" ∧
    lettersOnlyFilename id "cat" ["cat.png", "cat-copy.png"] = "cat-copy-copy.png" :=
  c4_filename_unique.2 id rfl

/-- C5 counterexample: the rebuild effect derives every name against a fresh
empty set, so two identical non-blank lines receive the same name and the
batch names are not pairwise distinct. -/
theorem c5_duplicate_lines_duplicate_names :
    ((rebuildResults id "cat\ncat").map (fun r => r.name)) = ["cat.png", "cat.png"] ∧
    ¬ ((rebuildResults id "cat\ncat").map (fun r => r.name)).Nodup := by
  decide

/-- C5 amended: the names assigned at rebuild are exactly the per-line
derivations against an empty existing-name set, so they are pairwise distinct
precisely when those independent derivations are; duplicate non-blank lines
therefore yield duplicate names. -/
theorem c5_names_are_per_line_derivations (norm : String → String) (text : String) :
    ((rebuildResults norm text).map (fun r => r.name)) =
      (promptsOf text).map (fun p => lettersOnlyFilename norm p []) ∧
    (((promptsOf text).map (fun p => lettersOnlyFilename norm p [])).Nodup →
      ((rebuildResults norm text).map (fun r => r.name)).Nodup) := by
  have he : ((rebuildResults norm text).map (fun r => r.name)) =
      (promptsOf text).map (fun p => lettersOnlyFilename norm p []) := by
    simp only [rebuildResults, List.map_map]
    rfl
  exact ⟨he, fun h => he ▸ h⟩

/-- C5 witness: with pairwise distinct derived line names the batch names are
pairwise distinct. -/
theorem c5_names_are_per_line_derivations_witness :
    ((rebuildResults id "cat\ndog").map (fun r => r.name)).Nodup :=
  (c5_names_are_per_line_derivations id "cat\ndog").2 (by decide)

/-- C6 counterexample: the start handler resets the cursor to zero, so from a
state with cursor two it does not leave the cursor unchanged. -/
theorem c6_start_resets_cursor :
    (start { promptText := "a\nb\nc", results := rebuildResults id "a\nb\nc",
             queueIndex := 2, running := false, paused := false,
             provider := "Gemini" } true).queueIndex ≠ 2 := by
  decide

/-- C6 amended: the start handler does not rebuild the records and leaves the
prompt text and provider alone, but besides setting running and clearing
paused it also resets the cursor to zero; without login or with no prompts it
changes nothing. -/
theorem c6_start_frame (st : AppState) :
    (promptsOf st.promptText ≠ [] →
      (start st true).results = st.results ∧
      (start st true).promptText = st.promptText ∧
      (start st true).provider = st.provider ∧
      (start st true).running = true ∧
      (start st true).paused = false ∧
      (start st true).queueIndex = 0) ∧
    (promptsOf st.promptText = [] → start st true = st) ∧
    start st false = st := by
  refine ⟨?_, ?_, rfl⟩
  · intro h
    have hlen : ¬ (promptsOf st.promptText).length = 0 := by
      simpa [List.length_eq_zero] using h
    unfold start
    simp [hlen]
  · intro h
    have hlen : (promptsOf st.promptText).length = 0 := by simp [h]
    unfold start
    simp [hlen]

/-- C6 witness at a concrete mid-run state with prompts, and at a concrete
state whose prompt list is empty. -/
theorem c6_start_frame_witness :
    (start { promptText := "cat", results := rebuildResults id "cat", queueIndex := 1, running := false, paused := false, provider := "Gemini" } true).results = rebuildResults id "cat" ∧
    (start { promptText := "cat", results := rebuildResults id "cat", queueIndex := 1, running := false, paused := false, provider := "Gemini" } true).queueIndex = 0 ∧
    start { promptText := "", results := [], queueIndex := 0, running := false, paused := false, provider := "Gemini" } true =
      { promptText := "", results := [], queueIndex := 0, running := false, paused := false, provider := "Gemini" } := by
  have h1 := c6_start_frame
    { promptText := "cat", results := rebuildResults id "cat", queueIndex := 1,
      running := false, paused := false, provider := "Gemini" }
  have h2 := c6_start_frame
    { promptText := "", results := [], queueIndex := 0, running := false,
      paused := false, provider := "Gemini" }
  exact ⟨(h1.1 (by decide)).1, (h1.1 (by decide)).2.2.2.2.2, h2.2.1 (by decide)⟩

/-- C7: the worker converts every dispatch outcome into a record update at
the captured cursor index and always advances the cursor by exactly one: a
thrown or rejected adapter call becomes a fail record carrying the message,
and never aborts the run. -/
theorem c7_failure_isolated (norm : String → String) (st : AppState)
    (hr : st.running = true) (hp : st.paused = false)
    (hq : st.queueIndex < (promptsOf st.promptText).length)
    (hk : st.provider ∈ knownProviders) :
    (∀ o, (workStep norm st o).queueIndex = st.queueIndex + 1) ∧
    (∀ m r0, st.results[st.queueIndex]? = some r0 →
        (workStep norm st (Except.error m)).results[st.queueIndex]? =
          some { r0 with name := workName norm st, status := "fail", error := some m }) ∧
    (∀ d r0, st.results[st.queueIndex]? = some r0 →
        (workStep norm st (Except.ok d)).results[st.queueIndex]? =
          some { r0 with name := workName norm st, status := "ok", dataUrl := some d }) := by
  have hdk : ∀ o, dispatchOutcome st.provider o = o := by
    intro o
    simp [dispatchOutcome, hk]
  refine ⟨?_, ?_, ?_⟩
  · intro o
    rw [workStep_eq norm st o hr hp hq, hdk o]
    cases o <;> rfl
  · intro m r0 h0
    rw [workStep_eq norm st (Except.error m) hr hp hq, hdk (Except.error m)]
    show (updateAt st.results st.queueIndex _)[st.queueIndex]? = _
    rw [getElem?_updateAt_self, h0]
    rfl
  · intro d r0 h0
    rw [workStep_eq norm st (Except.ok d) hr hp hq, hdk (Except.ok d)]
    show (updateAt st.results st.queueIndex _)[st.queueIndex]? = _
    rw [getElem?_updateAt_self, h0]
    rfl

/-- C7 witness: a failing dispatch at the first record of a fresh run. -/
theorem c7_failure_isolated_witness :
    (workStep id (initialRunState id "cat" "Gemini") (Except.error "boom")).queueIndex = 1 ∧
    (workStep id (initialRunState id "cat" "Gemini") (Except.error "boom")).results[0]? =
      some { prompt := "cat", name := "cat.png", status := "fail", dataUrl := none,
             error := some "boom" } := by
  have h := c7_failure_isolated id (initialRunState id "cat" "Gemini") rfl rfl
    (by decide) (by decide)
  refine ⟨h.1 (Except.error "boom"), ?_⟩
  have h2 := h.2.1 "boom"
    { prompt := "cat", name := "cat.png", status := "pending", dataUrl := none,
      error := none } (by decide)
  exact h2

/-- C8 counterexample: the main start handler performs no provider check, so
with an unregistered provider it still resets the cursor: the cursor is not
the same after the attempted start as before. -/
theorem c8_unknown_provider_start_mutates :
    "Foo" ∉ knownProviders ∧
    (start { promptText := "cat\ndog", results := rebuildResults id "cat\ndog",
             queueIndex := 1, running := false, paused := false,
             provider := "Foo" } true).queueIndex ≠ 1 := by
  decide

/-- C8 amended: with an unregistered provider the main start handler still
starts the run (cursor reset to zero, running set) while leaving the records
alone; the following worker firing calls no engine and writes a fail record
carrying the thrown type-error message; the duplicated component variant of
start returns with no state change. -/
theorem c8_unknown_provider_behavior (st : AppState)
    (hk : st.provider ∉ knownProviders) (hp : promptsOf st.promptText ≠ []) :
    (start st true).queueIndex = 0 ∧ (start st true).running = true ∧
    (start st true).paused = false ∧ (start st true).results = st.results ∧
    startVariant st true = st ∧
    workDispatches (start st true) = false ∧
    ∀ (norm : String → String) (o : Except String String) (r0 : ResultItem),
      st.results[0]? = some r0 →
      (workStep norm (start st true) o).results[0]? =
        some { r0 with name := workName norm (start st true), status := "fail", error := some "engine is not a function" } := by
  have hlen : ¬ (promptsOf st.promptText).length = 0 := by
    simpa [List.length_eq_zero] using hp
  have hstart : start st true =
      { st with queueIndex := 0, running := true, paused := false } := by
    unfold start
    simp [hlen]
  have hlen2 : 0 < (promptsOf st.promptText).length := Nat.pos_of_ne_zero hlen
  refine ⟨by rw [hstart], by rw [hstart], by rw [hstart], by rw [hstart], ?_, ?_, ?_⟩
  · unfold startVariant
    simp [if_neg hk]
  · rw [hstart]
    simp [workDispatches, hk, hlen2]
  · intro norm o r0 h0
    have heq := workStep_eq norm (start st true) o (by rw [hstart]) (by rw [hstart])
      (by rw [hstart]; exact hlen2)
    have hdo : dispatchOutcome (start st true).provider o =
        Except.error "engine is not a function" := by
      rw [hstart]
      simp [dispatchOutcome, hk]
    rw [heq, hdo]
    have hq0 : (start st true).queueIndex = 0 := by rw [hstart]
    have hres : (start st true).results = st.results := by rw [hstart]
    show (updateAt (start st true).results (start st true).queueIndex _)[0]? = _
    rw [hq0, hres, getElem?_updateAt_self, h0]
    rfl

/-- C8 witness at a concrete state with an unregistered provider. -/
theorem c8_unknown_provider_behavior_witness :
    (start { promptText := "cat", results := rebuildResults id "cat", queueIndex := 3, running := false, paused := false, provider := "Foo" } true).queueIndex = 0 ∧
    startVariant { promptText := "cat", results := rebuildResults id "cat", queueIndex := 3, running := false, paused := false, provider := "Foo" } true =
      { promptText := "cat", results := rebuildResults id "cat", queueIndex := 3, running := false, paused := false, provider := "Foo" } ∧
    workDispatches (start { promptText := "cat", results := rebuildResults id "cat", queueIndex := 3, running := false, paused := false, provider := "Foo" } true) = false ∧
    (workStep id (start { promptText := "cat", results := rebuildResults id "cat", queueIndex := 3, running := false, paused := false, provider := "Foo" } true) (Except.ok "d")).results[0]? =
      some { prompt := "cat", name := "cat.png", status := "fail", dataUrl := none, error := some "engine is not a function" } := by
  have h := c8_unknown_provider_behavior
    { promptText := "cat", results := rebuildResults id "cat", queueIndex := 3,
      running := false, paused := false, provider := "Foo" }
    (by decide) (by decide)
  refine ⟨h.1, h.2.2.2.2.1, h.2.2.2.2.2.1, ?_⟩
  have h2 := h.2.2.2.2.2.2 id (Except.ok "d")
    { prompt := "cat", name := "cat.png", status := "pending", dataUrl := none,
      error := none } (by decide)
  exact h2

/-- The body fields read by the proxy route handler; a missing field arrives
as the empty string, matching the falsiness test of the source. -/
structure GenRequest where
  provider : String
  apiKey : String
  prompt : String
deriving DecidableEq, Repr

/-- The fields of the parsed upstream body that the handler reads: the nested
error message, the flat message, and the five possible image payload
locations, in the order the handler tries them. -/
structure UpJson where
  errorMessage : Option String
  message : Option String
  dataB64 : Option String
  imageB64 : Option String
  imagesB64 : Option String
  candidatesB64 : Option String
  artifactsB64 : Option String
deriving DecidableEq, Repr

/-- The observed upstream response: the ok flag and status of the fetch
result, the raw body text, and the outcome of parsing that text as JSON
(abstracted: none models a parse failure). -/
structure UpstreamResp where
  ok : Bool
  status : Nat
  text : String
  parsed : Option UpJson
deriving DecidableEq, Repr

/-- The response of the proxy route: its HTTP status and the error or data
url field of its JSON body. -/
structure RouteResponse where
  status : Nat
  error : Option String
  dataUrl : Option String
deriving DecidableEq, Repr

/-- JavaScript truthiness for an optional string: the empty string is falsy
like an absent value. -/
def truthyStr : Option String → Option String
  | some s => if s = "" then none else some s
  | none => none

/-- The JavaScript or-else on optional strings: keep the left value when
truthy, otherwise fall through to the right. -/
def jsOrStr (a b : Option String) : Option String :=
  match truthyStr a with
  | some s => some s
  | none => b

/-- The payload extraction chain of the route: the first truthy value among
the five known image payload locations. -/
def b64Of (j : UpJson) : Option String :=
  jsOrStr j.dataB64 (jsOrStr j.imageB64 (jsOrStr j.imagesB64
    (jsOrStr j.candidatesB64 j.artifactsB64)))

/-- The upstream error message selection of the route: the nested error
message, else the flat message, else the fixed fallback. -/
def upErrorMsg (j : UpJson) : String :=
  match truthyStr (jsOrStr j.errorMessage j.message) with
  | some s => s
  | none => "Upstream API error"

/-- The proxy POST handler of app/api/gen/route.js.  The three known
provider branches only choose the upstream endpoint and body, which the
abstract upstream response already accounts for, so they are collapsed into
one membership test; the fetch and the JSON parse are abstracted into the
given upstream response value. -/
def postGen (req : GenRequest) (up : UpstreamResp) : RouteResponse :=
  if req.provider = "" ∨ req.apiKey = "" ∨ req.prompt = "" then
    { status := 400, error := some "Missing provider/apiKey/prompt", dataUrl := none }
  else if ¬ (req.provider = "openai" ∨ req.provider = "gemini" ∨ req.provider = "stability") then
    { status := 400, error := some "Unknown provider", dataUrl := none }
  else if up.text = "" then
    { status := 500, error := some "Empty response from provider", dataUrl := none }
  else
    match up.parsed with
    | none => { status := 500, error := some "Invalid JSON from provider", dataUrl := none }
    | some j =>
        if up.ok = false then
          { status := if up.status = 0 then 500 else up.status,
            error := some (upErrorMsg j), dataUrl := none }
        else
          match truthyStr (b64Of j) with
          | none => { status := 500, error := some "No image data found", dataUrl := none }
          | some b =>
              { status := 200, error := none,
                dataUrl := some ("data:image/png;base64," ++ b) }

/-- A request that passes the field and provider checks of the route. -/
def goodReq (req : GenRequest) : Prop :=
  req.apiKey ≠ "" ∧ req.prompt ≠ "" ∧
    (req.provider = "openai" ∨ req.provider = "gemini" ∨ req.provider = "stability")

instance (req : GenRequest) : Decidable (goodReq req) := by
  unfold goodReq
  infer_instance

/-- C9 counterexample: when the upstream reports a non-success status the
route mirrors that status rather than answering with a five-hundred class
status; an upstream 401 yields a route 401 with the error body. -/
theorem c9_upstream_status_mirrored :
    (postGen { provider := "openai", apiKey := "k", prompt := "p" }
      { ok := false, status := 401, text := "x",
        parsed := some { errorMessage := some "Unauthorized", message := none, dataB64 := none, imageB64 := none, imagesB64 := none, candidatesB64 := none, artifactsB64 := none } }).status = 401 ∧
    (postGen { provider := "openai", apiKey := "k", prompt := "p" }
      { ok := false, status := 401, text := "x",
        parsed := some { errorMessage := some "Unauthorized", message := none, dataB64 := none, imageB64 := none, imagesB64 := none, candidatesB64 := none, artifactsB64 := none } }).error = some "Unauthorized" ∧
    ¬ 500 ≤ (postGen { provider := "openai", apiKey := "k", prompt := "p" }
      { ok := false, status := 401, text := "x",
        parsed := some { errorMessage := some "Unauthorized", message := none, dataB64 := none, imageB64 := none, imagesB64 := none, candidatesB64 := none, artifactsB64 := none } }).status := by
  decide

/-- C9 amended: the route answers 400 with an error body for a missing field
or an unrecognized provider; 500 with an error body for an empty upstream
body, an unparsable upstream body, or a parsed body lacking every known image
payload location; for a non-success upstream status it mirrors that status
(500 when the status is falsy) with the selected upstream message; and on
success it answers 200 with the base64 image data url. -/
theorem c9_route_responses (req : GenRequest) (up : UpstreamResp) :
    ((req.provider = "" ∨ req.apiKey = "" ∨ req.prompt = "") →
      postGen req up = { status := 400, error := some "Missing provider/apiKey/prompt", dataUrl := none }) ∧
    (req.provider ≠ "" → req.provider ≠ "openai" → req.provider ≠ "gemini" →
      req.provider ≠ "stability" → req.apiKey ≠ "" → req.prompt ≠ "" →
      postGen req up = { status := 400, error := some "Unknown provider", dataUrl := none }) ∧
    (goodReq req → up.text = "" →
      postGen req up = { status := 500, error := some "Empty response from provider", dataUrl := none }) ∧
    (goodReq req → up.text ≠ "" → up.parsed = none →
      postGen req up = { status := 500, error := some "Invalid JSON from provider", dataUrl := none }) ∧
    (∀ j, goodReq req → up.text ≠ "" → up.parsed = some j → up.ok = false →
      postGen req up = { status := if up.status = 0 then 500 else up.status, error := some (upErrorMsg j), dataUrl := none }) ∧
    (∀ j, goodReq req → up.text ≠ "" → up.parsed = some j → up.ok = true →
      truthyStr (b64Of j) = none →
      postGen req up = { status := 500, error := some "No image data found", dataUrl := none }) ∧
    (∀ j b, goodReq req → up.text ≠ "" → up.parsed = some j → up.ok = true →
      truthyStr (b64Of j) = some b →
      postGen req up = { status := 200, error := none, dataUrl := some ("data:image/png;base64," ++ b) }) := by
  have hprov : ∀ h : goodReq req,
      ¬ (req.provider = "" ∨ req.apiKey = "" ∨ req.prompt = "") := by
    intro h hor
    rcases h with ⟨h1, h2, h3⟩
    rcases hor with h4 | h4 | h4
    · rcases h3 with h5 | h5 | h5 <;> rw [h5] at h4 <;> exact absurd h4 (by decide)
    · exact h1 h4
    · exact h2 h4
  have hprov2 : ∀ h : goodReq req,
      ¬ ¬ (req.provider = "openai" ∨ req.provider = "gemini" ∨ req.provider = "stability") :=
    fun h h2 => h2 h.2.2
  refine ⟨?_, ?_, ?_, ?_, ?_, ?_, ?_⟩
  · intro h
    simp only [postGen, if_pos h]
  · intro h1 h2 h3 h4 h5 h6
    simp only [postGen, h1, h2, h3, h4, h5, h6]
    simp
  · intro hg htext
    simp only [postGen, if_neg (hprov hg), if_neg (hprov2 hg), if_pos htext]
  · intro hg htext hparse
    simp only [postGen, if_neg (hprov hg), if_neg (hprov2 hg), if_neg htext, hparse]
  · intro j hg htext hparse hok
    simp only [postGen, if_neg (hprov hg), if_neg (hprov2 hg), if_neg htext, hparse, hok]
    simp
  · intro j hg htext hparse hok hb
    simp only [postGen, if_neg (hprov hg), if_neg (hprov2 hg), if_neg htext, hparse, hok, hb]
    simp
  · intro j b hg htext hparse hok hb
    simp only [postGen, if_neg (hprov hg), if_neg (hprov2 hg), if_neg htext, hparse, hok, hb]
    simp

/-- C9 witness covering each branch of the route at concrete inputs. -/
theorem c9_route_responses_witness :
    postGen { provider := "", apiKey := "k", prompt := "p" } { ok := true, status := 200, text := "x", parsed := none } = { status := 400, error := some "Missing provider/apiKey/prompt", dataUrl := none } ∧
    postGen { provider := "other", apiKey := "k", prompt := "p" } { ok := true, status := 200, text := "x", parsed := none } = { status := 400, error := some "Unknown provider", dataUrl := none } ∧
    postGen { provider := "openai", apiKey := "k", prompt := "p" } { ok := true, status := 200, text := "", parsed := none } = { status := 500, error := some "Empty response from provider", dataUrl := none } ∧
    postGen { provider := "openai", apiKey := "k", prompt := "p" } { ok := true, status := 200, text := "x", parsed := none } = { status := 500, error := some "Invalid JSON from provider", dataUrl := none } ∧
    postGen { provider := "openai", apiKey := "k", prompt := "p" } { ok := false, status := 503, text := "x", parsed := some { errorMessage := none, message := some "down", dataB64 := none, imageB64 := none, imagesB64 := none, candidatesB64 := none, artifactsB64 := none } } = { status := 503, error := some "down", dataUrl := none } ∧
    postGen { provider := "openai", apiKey := "k", prompt := "p" } { ok := true, status := 200, text := "x", parsed := some { errorMessage := none, message := none, dataB64 := none, imageB64 := none, imagesB64 := none, candidatesB64 := none, artifactsB64 := some "" } } = { status := 500, error := some "No image data found", dataUrl := none } ∧
    postGen { provider := "openai", apiKey := "k", prompt := "p" } { ok := true, status := 200, text := "x", parsed := some { errorMessage := none, message := none, dataB64 := some "QUJD", imageB64 := none, imagesB64 := none, candidatesB64 := none, artifactsB64 := none } } = { status := 200, error := none, dataUrl := some "data:image/png;base64,QUJD" } := by
  refine ⟨?_, ?_, ?_, ?_, ?_, ?_, ?_⟩
  · exact (c9_route_responses { provider := "", apiKey := "k", prompt := "p" } { ok := true, status := 200, text := "x", parsed := none }).1 (Or.inl rfl)
  · exact (c9_route_responses { provider := "other", apiKey := "k", prompt := "p" } { ok := true, status := 200, text := "x", parsed := none }).2.1 (by decide) (by decide) (by decide) (by decide) (by decide) (by decide)
  · exact (c9_route_responses { provider := "openai", apiKey := "k", prompt := "p" } { ok := true, status := 200, text := "", parsed := none }).2.2.1 (by decide) rfl
  · exact (c9_route_responses { provider := "openai", apiKey := "k", prompt := "p" } { ok := true, status := 200, text := "x", parsed := none }).2.2.2.1 (by decide) (by decide) rfl
  · have h := (c9_route_responses { provider := "openai", apiKey := "k", prompt := "p" } { ok := false, status := 503, text := "x", parsed := some { errorMessage := none, message := some "down", dataB64 := none, imageB64 := none, imagesB64 := none, candidatesB64 := none, artifactsB64 := none } }).2.2.2.2.1 { errorMessage := none, message := some "down", dataB64 := none, imageB64 := none, imagesB64 := none, candidatesB64 := none, artifactsB64 := none } (by decide) (by decide) rfl rfl
    exact h
  · exact (c9_route_responses { provider := "openai", apiKey := "k", prompt := "p" } { ok := true, status := 200, text := "x", parsed := some { errorMessage := none, message := none, dataB64 := none, imageB64 := none, imagesB64 := none, candidatesB64 := none, artifactsB64 := some "" } }).2.2.2.2.2.1 { errorMessage := none, message := none, dataB64 := none, imageB64 := none, imagesB64 := none, candidatesB64 := none, artifactsB64 := some "" } (by decide) (by decide) rfl rfl (by decide)
  · exact (c9_route_responses { provider := "openai", apiKey := "k", prompt := "p" } { ok := true, status := 200, text := "x", parsed := some { errorMessage := none, message := none, dataB64 := some "QUJD", imageB64 := none, imagesB64 := none, candidatesB64 := none, artifactsB64 := none } }).2.2.2.2.2.2 { errorMessage := none, message := none, dataB64 := some "QUJD", imageB64 := none, imagesB64 := none, candidatesB64 := none, artifactsB64 := none } "QUJD" (by decide) (by decide) rfl rfl (by decide)

/-- C10: the retry handler imposes no precondition on the current status of
the target record: whenever a record exists at the index it calls the active
engine and drives exactly that record through pending to ok or fail, leaving
the cursor, the flags and every other record alone; with no record at the
index it calls no engine and changes nothing. -/
theorem c10_regenerate_any_status (st : AppState) (idx : Nat)
    (hk : st.provider ∈ knownProviders) :
    (∀ r0, st.results[idx]? = some r0 →
      regenDispatches st idx = true ∧
      (regenPendingState st idx).results[idx]? =
        some { r0 with status := "pending", error := none } ∧
      (∀ d, (regenerateOne st idx (Except.ok d)).results[idx]? =
        some { r0 with status := "ok", error := none, dataUrl := some d }) ∧
      (∀ m, (regenerateOne st idx (Except.error m)).results[idx]? =
        some { r0 with status := "fail", error := some m }) ∧
      (∀ o, (regenerateOne st idx o).queueIndex = st.queueIndex ∧
            (regenerateOne st idx o).running = st.running ∧
            (regenerateOne st idx o).paused = st.paused ∧
            (regenerateOne st idx o).promptText = st.promptText) ∧
      (∀ o j, j ≠ idx → (regenerateOne st idx o).results[j]? = st.results[j]?)) ∧
    (st.results[idx]? = none →
      regenDispatches st idx = false ∧ ∀ o, regenerateOne st idx o = st) := by
  have hdk : ∀ o, dispatchOutcome st.provider o = o := by
    intro o
    simp [dispatchOutcome, hk]
  constructor
  · intro r0 h0
    have hpend : regenPendingState st idx =
        { st with results := updateAt st.results idx (fun r => { r with status := "pending", error := none }) } := by
      unfold regenPendingState
      rw [h0]
    have hok : ∀ d, regenerateOne st idx (Except.ok d) =
        { st with results := updateAt (updateAt st.results idx (fun r => { r with status := "pending", error := none })) idx (fun r => { r with status := "ok", dataUrl := some d }) } := by
      intro d
      unfold regenerateOne
      rw [h0]
      simp only [hdk, hpend]
    have hfail : ∀ m, regenerateOne st idx (Except.error m) =
        { st with results := updateAt (updateAt st.results idx (fun r => { r with status := "pending", error := none })) idx (fun r => { r with status := "fail", error := some m }) } := by
      intro m
      unfold regenerateOne
      rw [h0]
      simp only [hdk, hpend]
    have hcase : ∀ o, regenerateOne st idx o =
        regenerateOne st idx o := fun _ => rfl
    refine ⟨?_, ?_, ?_, ?_, ?_, ?_⟩
    · simp [regenDispatches, h0, hk]
    · rw [hpend]
      show (updateAt st.results idx _)[idx]? = _
      rw [getElem?_updateAt_self, h0]
      rfl
    · intro d
      rw [hok d]
      show (updateAt (updateAt st.results idx _) idx _)[idx]? = _
      rw [getElem?_updateAt_self, getElem?_updateAt_self, h0]
      rfl
    · intro m
      rw [hfail m]
      show (updateAt (updateAt st.results idx _) idx _)[idx]? = _
      rw [getElem?_updateAt_self, getElem?_updateAt_self, h0]
      rfl
    · intro o
      cases o with
      | ok d => rw [hok d]; exact ⟨rfl, rfl, rfl, rfl⟩
      | error m => rw [hfail m]; exact ⟨rfl, rfl, rfl, rfl⟩
    · intro o j hj
      cases o with
      | ok d =>
        rw [hok d]
        show (updateAt (updateAt st.results idx _) idx _)[j]? = _
        rw [getElem?_updateAt_ne _ _ _ _ hj, getElem?_updateAt_ne _ _ _ _ hj]
      | error m =>
        rw [hfail m]
        show (updateAt (updateAt st.results idx _) idx _)[j]? = _
        rw [getElem?_updateAt_ne _ _ _ _ hj, getElem?_updateAt_ne _ _ _ _ hj]
  · intro h0
    constructor
    · simp [regenDispatches, h0]
    · intro o
      unfold regenerateOne
      rw [h0]

/-- C10 witness: retrying a record whose status is already ok re-runs it,
and retrying past the end of the records changes nothing. -/
theorem c10_regenerate_any_status_witness :
    (regenerateOne { promptText := "cat", results := [{ prompt := "cat", name := "cat.png", status := "ok", dataUrl := some "old", error := none }], queueIndex := 1, running := false, paused := false, provider := "Gemini" } 0 (Except.ok "new")).results[0]? =
      some { prompt := "cat", name := "cat.png", status := "ok", dataUrl := some "new", error := none } ∧
    regenerateOne { promptText := "cat", results := [{ prompt := "cat", name := "cat.png", status := "ok", dataUrl := some "old", error := none }], queueIndex := 1, running := false, paused := false, provider := "Gemini" } 5 (Except.ok "new") =
      { promptText := "cat", results := [{ prompt := "cat", name := "cat.png", status := "ok", dataUrl := some "old", error := none }], queueIndex := 1, running := false, paused := false, provider := "Gemini" } := by
  constructor
  · have h := (c10_regenerate_any_status { promptText := "cat", results := [{ prompt := "cat", name := "cat.png", status := "ok", dataUrl := some "old", error := none }], queueIndex := 1, running := false, paused := false, provider := "Gemini" } 0 (by decide)).1 { prompt := "cat", name := "cat.png", status := "ok", dataUrl := some "old", error := none } rfl
    exact h.2.2.1 "new"
  · have h := (c10_regenerate_any_status { promptText := "cat", results := [{ prompt := "cat", name := "cat.png", status := "ok", dataUrl := some "old", error := none }], queueIndex := 1, running := false, paused := false, provider := "Gemini" } 5 (by decide)).2 rfl
    exact h.2 (Except.ok "new")

end PromptHub
